import Mathlib

/-!
# Shallow embedding of the TCP-IP network simulator core

This file embeds the topology/forwarding core of the repository
(`Connection.cpp`, `Device.cpp`, `EndDevice.cpp`, `Hub.cpp`, `bus.cpp`,
`Network.cpp`) and proves/refutes the frozen claims about it.

Modelling conventions:
* C++ objects are addressed by stable `Nat` ids (indices into the network's
  device list); pointer equality in the source becomes id equality.
* The polymorphic `Device` hierarchy (`EndDevice`, `Hub`, `Bus`) becomes a
  single structure with a `kind` tag; fields used by only one variant
  (`nextPort` for `Hub`, `connectedDevices` for `Bus`) are carried along
  unused by the other variants.
* Each device's log file becomes a `log : List String` of exactly the lines
  `logMessage` appends (the constructor's header banner and the timestamp
  prefixes are formatting-only and omitted).
* Forwarding (`receiveData`) in C++ is unboundedly recursive over the object
  graph; here it takes a `fuel : Nat` argument and returns the state
  unchanged with no deliveries when fuel runs out.  All theorems are stated
  with enough fuel that this branch is never taken.
* Alongside the updated network state, `receiveData`/`sendData` return the
  trace of `receiveData` invocations they perform (one `Delivery` per call,
  in call order), making "who was forwarded what, on which port, from whom"
  directly observable.
-/

/-- The two-endpoint edge of `Connection.h`: device ids plus a port number on
each side (`int` in C++, so `Int` here — `getPortNumber` uses `-1` as its
not-an-endpoint sentinel). -/
structure Connection where
  deviceA : Nat
  deviceB : Nat
  portA : Int
  portB : Int
deriving DecidableEq, Repr

/-- `Connection::getOtherDevice`: the opposite endpoint, `none` for the C++
`nullptr` returned when `device` is neither endpoint. -/
def Connection.getOtherDevice (c : Connection) (device : Nat) : Option Nat :=
  if device = c.deviceA then some c.deviceB
  else if device = c.deviceB then some c.deviceA
  else none

/-- `Connection::getPortNumber`: the port of `device` on this connection,
`-1` when `device` is neither endpoint. -/
def Connection.getPortNumber (c : Connection) (device : Nat) : Int :=
  if device = c.deviceA then c.portA
  else if device = c.deviceB then c.portB
  else -1

/-- The closed set of device variants (`EndDevice`, `Hub`, `Bus`). -/
inductive DeviceKind where
  | endDevice
  | hub
  | bus
deriving DecidableEq, Repr

/-- One device record.  `connections` is `Device::connections` (order =
insertion order), `log` the lines written by `logMessage`, `nextPort` is
`Hub::nextPort` and `connectedDevices` is `Bus::connectedDevices`. -/
structure Device where
  kind : DeviceKind
  name : String
  connections : List Connection
  log : List String
  nextPort : Nat
  connectedDevices : List Nat
deriving DecidableEq, Repr

/-- Placeholder returned when a nonexistent device id is dereferenced (the
C++ would have dereferenced a dangling pointer; no claim exercises this). -/
def defaultDevice : Device :=
  { kind := .endDevice, name := "", connections := [], log := [],
    nextPort := 0, connectedDevices := [] }

/-- The topology of `Network.h`: the device arena (ids = positions), the
network-owned connection list, and the auto-naming counter. -/
structure Network where
  devices : List Device
  connections : List Connection
  nextId : Nat
deriving DecidableEq, Repr

/-- Dereference a device id. -/
def Network.device (net : Network) (i : Nat) : Device :=
  net.devices.getD i defaultDevice

/-- Apply `f` to the element at index `i` (identity when out of range). -/
def updateAt {α : Type} : List α → Nat → (α → α) → List α
  | [], _, _ => []
  | a :: rest, 0, f => f a :: rest
  | a :: rest, n + 1, f => a :: updateAt rest n f

/-- Update the record of device `i`. -/
def Network.updateDevice (net : Network) (i : Nat) (f : Device → Device) :
    Network :=
  { net with devices := updateAt net.devices i f }

/-- `logMessage` on device `i`: append one line to its log file. -/
def Network.logTo (net : Network) (i : Nat) (e : String) : Network :=
  net.updateDevice i (fun d => { d with log := d.log ++ [e] })

/-- One `receiveData` invocation as recorded in a trace: target device,
arrival-port argument, sender-name argument, payload. -/
structure Delivery where
  dev : Nat
  port : Int
  sender : String
  data : String
deriving DecidableEq, Repr

/-! ## The log lines the code formats (named so the theorems can cite them) -/

/-- The line `EndDevice::receiveData` logs: the sender clause is present only
when the sender name is nonempty (no "unknown" substitution here). -/
def endReceiveEntry (sender : String) (port : Int) (data : String) : String :=
  if sender ≠ "" then
    "RECEIVED from " ++ sender ++ " on port " ++ toString port ++ ": " ++ data
  else
    "RECEIVED on port " ++ toString port ++ ": " ++ data

/-- The inbound line `Hub::receiveData`/`Bus::receiveData` log, with the
empty sender rendered as "unknown". -/
def repeaterReceiveEntry (sender : String) (port : Int) (data : String) :
    String :=
  "RECEIVED from " ++ (if sender = "" then "unknown" else sender) ++
    " on port " ++ toString port ++ ": " ++ data

/-- `Hub::receiveData`'s per-forward line (note: it prints the hub-side
port). -/
def hubForwardEntry (otherName : String) (hubPort : Int) (data : String) :
    String :=
  "FORWARDED to " ++ otherName ++ " on port " ++ toString hubPort ++ ": " ++
    data

/-- `Bus::receiveData`'s per-forward line. -/
def busForwardEntry (otherName : String) (data : String) : String :=
  "FORWARDED to " ++ otherName ++ ": " ++ data

/-- The `NoConnections` event `EndDevice::sendData` logs. -/
def noConnectionsEntry (data : String) : String :=
  "ERROR: No connections available to send data: " ++ data

/-- The line `EndDevice::sendData` logs before forwarding. -/
def sendingEntry (data : String) : String :=
  "SENDING: " ++ data

/-- The `UnsupportedOperation` event `Hub::sendData` logs. -/
def hubUnsupportedEntry (data : String) : String :=
  "ERROR: Hubs don't initiate data sending: " ++ data

/-- The `UnsupportedOperation` event `Bus::sendData` logs. -/
def busUnsupportedEntry (data : String) : String :=
  "ERROR: Buses don't initiate data sending: " ++ data

/-! ## The forwarding engine -/

/-- The broadcast loop of `Hub::receiveData`, parametric in the recursive
call `recv` (it is instantiated with `receiveData` at one fuel less): walk
the hub's connection list in order, skip the connection whose hub-side port
equals the incoming port, deliver through the rest, logging each forward. -/
def forwardConns
    (recv : Network → Nat → String → Int → String → Network × List Delivery)
    (net : Network) (hubId : Nat) (conns : List Connection)
    (data : String) (incomingPort : Int) (sender : String) :
    Network × List Delivery :=
  match conns with
  | [] => (net, [])
  | c :: rest =>
    let portNumber := c.getPortNumber hubId
    if portNumber ≠ incomingPort then
      match c.getOtherDevice hubId with
      | some other =>
        let otherPort := c.getPortNumber other
        let r1 := recv net other data otherPort sender
        let net2 := r1.1.logTo hubId
          (hubForwardEntry (r1.1.device other).name portNumber data)
        let r2 := forwardConns recv net2 hubId rest data incomingPort sender
        (r2.1, ⟨other, otherPort, sender, data⟩ :: r1.2 ++ r2.2)
      | none => forwardConns recv net hubId rest data incomingPort sender
    else forwardConns recv net hubId rest data incomingPort sender

/-- The broadcast loop of `Bus::receiveData`, parametric in the recursive
call: `for (int i = 0; i < connectedDevices.size(); i++)`, skipping
`i == incomingPort`, reading `connectedDevices[i]` and the parallel
`connections[i]`.  The countdown is rendered structurally: `rem` is the
still-unprocessed suffix of `connectedDevices` (so its head is
`connectedDevices[i]`), while `i` keeps the loop counter for the skip test
and the `connections[i]` lookup.  The source indexes `connections`
unchecked; states the code builds keep it at least as long as
`connectedDevices`, so the `none` branch is unreachable there. -/
def busForward
    (recv : Network → Nat → String → Int → String → Network × List Delivery)
    (net : Network) (busId : Nat) (rem : List Nat)
    (conns : List Connection) (i : Nat)
    (data : String) (incomingPort : Int) (sender : String) :
    Network × List Delivery :=
  match rem with
  | [] => (net, [])
  | d :: rest =>
    if (i : Int) ≠ incomingPort then
      match conns[i]? with
      | some c =>
        let devicePort := c.getPortNumber d
        let r1 := recv net d data devicePort sender
        let net2 := r1.1.logTo busId
          (busForwardEntry (r1.1.device d).name data)
        let r2 := busForward recv net2 busId rest conns (i + 1) data
          incomingPort sender
        (r2.1, ⟨d, devicePort, sender, data⟩ :: r1.2 ++ r2.2)
      | none => busForward recv net busId rest conns (i + 1) data
          incomingPort sender
    else busForward recv net busId rest conns (i + 1) data incomingPort sender

/-- `receiveData` dispatched on the device's dynamic type, instrumented with
the delivery trace.  `fuel` bounds the recursion depth (the C++ recursion is
unbounded; see the header comment). -/
def receiveData (fuel : Nat) (net : Network) (dev : Nat) (data : String)
    (incomingPort : Int) (sender : String) : Network × List Delivery :=
  match fuel with
  | 0 => (net, [])
  | fuel + 1 =>
    match (net.device dev).kind with
    | .endDevice =>
      (net.logTo dev (endReceiveEntry sender incomingPort data), [])
    | .hub =>
      let net1 := net.logTo dev (repeaterReceiveEntry sender incomingPort data)
      forwardConns (fun n d dt p s => receiveData fuel n d dt p s)
        net1 dev (net1.device dev).connections data incomingPort sender
    | .bus =>
      let net1 := net.logTo dev (repeaterReceiveEntry sender incomingPort data)
      busForward (fun n d dt p s => receiveData fuel n d dt p s)
        net1 dev (net1.device dev).connectedDevices
        (net1.device dev).connections 0 data incomingPort sender

/-- The loop of `EndDevice::sendData`: for each attached connection, resolve
the opposite endpoint and call its `receiveData` with the receiver-side port
and this device's name as the sender. -/
def sendConns
    (recv : Network → Nat → String → Int → String → Network × List Delivery)
    (net : Network) (devId : Nat) (conns : List Connection) (data : String) :
    Network × List Delivery :=
  match conns with
  | [] => (net, [])
  | c :: rest =>
    match c.getOtherDevice devId with
    | some receiver =>
      let receiverPort := c.getPortNumber receiver
      let selfName := (net.device devId).name
      let r1 := recv net receiver data receiverPort selfName
      let r2 := sendConns recv r1.1 devId rest data
      (r2.1, ⟨receiver, receiverPort, selfName, data⟩ :: r1.2 ++ r2.2)
    | none => sendConns recv net devId rest data

/-- `sendData` dispatched on the device's dynamic type: an `EndDevice` with
no connections logs the `NoConnections` error and stops; otherwise it logs
`SENDING` and walks its connections; a `Hub`/`Bus` only logs the
unsupported-operation error. -/
def sendData (fuel : Nat) (net : Network) (dev : Nat) (data : String) :
    Network × List Delivery :=
  match (net.device dev).kind with
  | .endDevice =>
    if (net.device dev).connections = [] then
      (net.logTo dev (noConnectionsEntry data), [])
    else
      let net1 := net.logTo dev (sendingEntry data)
      sendConns (receiveData fuel) net1 dev (net1.device dev).connections data
  | .hub => (net.logTo dev (hubUnsupportedEntry data), [])
  | .bus => (net.logTo dev (busUnsupportedEntry data), [])

/-- `Connection::transmitData`: route `data` from `sender` (an endpoint id)
to the opposite endpoint.  The sender's name is passed through only when the
`dynamic_cast`s on both the sender and the receiver succeed, i.e. both are
`EndDevice`s; otherwise the receiver is called with the defaulted empty
sender name.  A `sender` that is neither endpoint falls through (no-op). -/
def transmitData (fuel : Nat) (net : Network) (c : Connection)
    (data : String) (sender : Nat) : Network × List Delivery :=
  if sender = c.deviceA then
    let sname :=
      if (net.device sender).kind = .endDevice ∧
          (net.device c.deviceB).kind = .endDevice then
        (net.device sender).name
      else ""
    let r := receiveData fuel net c.deviceB data c.portB sname
    (r.1, ⟨c.deviceB, c.portB, sname, data⟩ :: r.2)
  else if sender = c.deviceB then
    let sname :=
      if (net.device sender).kind = .endDevice ∧
          (net.device c.deviceA).kind = .endDevice then
        (net.device sender).name
      else ""
    let r := receiveData fuel net c.deviceA data c.portA sname
    (r.1, ⟨c.deviceA, c.portA, sname, data⟩ :: r.2)
  else (net, [])

/-! ## Topology construction (`Network.cpp`, `Hub::connectDevice`,
`Bus::connectDevice`) -/

/-- The empty `Network()` (`nextId` starts at 1). -/
def emptyNetwork : Network :=
  { devices := [], connections := [], nextId := 1 }

/-- `Network::createEndDevice`: empty name synthesizes `"PC<nextId++>"`;
returns the new device's id. -/
def createEndDevice (name : String) (net : Network) : Nat × Network :=
  let deviceName := if name = "" then "PC" ++ toString net.nextId else name
  let nextId := if name = "" then net.nextId + 1 else net.nextId
  (net.devices.length,
    { net with
      devices := net.devices ++
        [{ kind := .endDevice, name := deviceName, connections := [],
           log := [], nextPort := 0, connectedDevices := [] }],
      nextId := nextId })

/-- `Network::createHub`: empty name synthesizes `"Hub<nextId++>"`. -/
def createHub (name : String) (net : Network) : Nat × Network :=
  let hubName := if name = "" then "Hub" ++ toString net.nextId else name
  let nextId := if name = "" then net.nextId + 1 else net.nextId
  (net.devices.length,
    { net with
      devices := net.devices ++
        [{ kind := .hub, name := hubName, connections := [], log := [],
           nextPort := 0, connectedDevices := [] }],
      nextId := nextId })

/-- A standalone `Bus(name)` appended to the arena (`Network` has no bus
factory; buses are constructed directly in the source). -/
def createBus (name : String) (net : Network) : Nat × Network :=
  (net.devices.length,
    { net with
      devices := net.devices ++
        [{ kind := .bus, name := name, connections := [], log := [],
           nextPort := 0, connectedDevices := [] }] })

/-- `Network::connectDevices`: a direct link with port 0 on both sides,
recorded on both devices and in the network's connection list. -/
def connectDevices (d1 d2 : Nat) (net : Network) : Network :=
  let c : Connection := ⟨d1, d2, 0, 0⟩
  let net1 := net.updateDevice d1
    (fun d => { d with connections := d.connections ++ [c] })
  let net2 := net1.updateDevice d2
    (fun d => { d with connections := d.connections ++ [c] })
  { net2 with connections := net2.connections ++ [c] }

/-- `Hub::connectDevice` (reached through `Network::connectToHub`): assign
`nextPort++` as the hub-side port, the attached device's side is always
port 0; the new connection is pushed onto both devices' lists.  Returns the
assigned port, as the C++ does. -/
def connectToHub (hubId devId : Nat) (net : Network) : Int × Network :=
  let portNumber : Int := (net.device hubId).nextPort
  let c : Connection := ⟨hubId, devId, portNumber, 0⟩
  let net1 := net.updateDevice hubId
    (fun d => { d with nextPort := d.nextPort + 1,
                       connections := d.connections ++ [c] })
  let net2 := net1.updateDevice devId
    (fun d => { d with connections := d.connections ++ [c] })
  (portNumber, net2)

/-- `Bus::connectDevice`: the bus-side port is the current length of the
attachment list; the device is appended to `connectedDevices` and the
connection to both devices' lists. -/
def connectToBus (busId devId : Nat) (net : Network) : Network :=
  let portNumber : Int := (net.device busId).connectedDevices.length
  let c : Connection := ⟨busId, devId, portNumber, 0⟩
  let net1 := net.updateDevice busId
    (fun d => { d with connections := d.connections ++ [c],
                       connectedDevices := d.connectedDevices ++ [devId] })
  let net2 := net1.updateDevice devId
    (fun d => { d with connections := d.connections ++ [c] })
  net2

/-- Fold `connectToHub` over a list of devices, collecting the returned
ports (the i-th element is what the i-th `Hub::connectDevice` call
returned). -/
def attachAll (hubId : Nat) : List Nat → Network → List Int × Network
  | [], net => ([], net)
  | d :: ds, net =>
    let r := connectToHub hubId d net
    let rest := attachAll hubId ds r.2
    (r.1 :: rest.1, rest.2)

/-- The connection list `Hub::connectDevice` builds when devices `ds` are
attached starting at hub-side port `j` (the attached device's side is
always port 0). -/
def attachFrom (h : Nat) : Nat → List Nat → List Connection
  | _, [] => []
  | j, d :: ds => ⟨h, d, (j : Int), 0⟩ :: attachFrom h (j + 1) ds

/-- Expected broadcast result: one delivery (on device-side port 0) per
attachment slot, in slot order, skipping exactly the slot whose repeater-side
port equals the arrival port `k`. -/
def deliveriesFrom (k : Int) (s data : String) : Nat → List Nat → List Delivery
  | _, [] => []
  | j, d :: ds =>
    if (j : Int) = k then deliveriesFrom k s data (j + 1) ds
    else ⟨d, 0, s, data⟩ :: deliveriesFrom k s data (j + 1) ds

/-- The port each connection of device `i`'s list assigns to `i` itself
(the "own side" ports the spec's per-device uniqueness invariant is
about). -/
def devicePorts (net : Network) (i : Nat) : List Int :=
  (net.device i).connections.map (fun c => c.getPortNumber i)

/-- The caller-side composition used by `Hub::receiveData` (the spec calls
it `resolveOtherEndpoint`): the opposite endpoint together with that
endpoint's own port, `none` (the C++ `nullptr`) when `d` is not an
endpoint. -/
def resolveOtherEndpoint (c : Connection) (d : Nat) : Option (Nat × Int) :=
  match c.getOtherDevice d with
  | none => none
  | some o => some (o, c.getPortNumber o)

/-! ## Concrete topologies used by the scenario theorems -/

/-- `PC1`, `PC2`, `PC3` (ids 0, 1, 2) attached to hub `H` (id 3) at hub
ports 0, 1, 2 — the spec's star scenario. -/
def starNet : Network :=
  let n1 := (createEndDevice "PC1" emptyNetwork).2
  let n2 := (createEndDevice "PC2" n1).2
  let n3 := (createEndDevice "PC3" n2).2
  let n4 := (createHub "H" n3).2
  (connectToHub 3 2 (connectToHub 3 1 (connectToHub 3 0 n4).2).2).2

/-- A two-repeater chain `A — H1 — H2 — D`: `A` (id 0), hubs `H1` (id 1) and
`H2` (id 2), spare device `Z` (id 3) and terminal `D` (id 4).  `H1` attaches
`H2` then `A`; `H2` attaches `Z` then `D`, so the hub-side ports along the
path differ from the arrival ports and the payload traverses both hubs. -/
def chainNet : Network :=
  let n1 := (createEndDevice "A" emptyNetwork).2
  let n2 := (createHub "H1" n1).2
  let n3 := (createHub "H2" n2).2
  let n4 := (createEndDevice "Z" n3).2
  let n5 := (createEndDevice "D" n4).2
  (connectToHub 2 4 (connectToHub 2 3 (connectToHub 1 0 (connectToHub 1 2 n5).2).2).2).2

/-- `PC1` (id 0) linked directly to `PC2` (id 1) and also attached to hub
`H` (id 2): both connections give `PC1` port 0 on its own side. -/
def dupPortNet : Network :=
  let n1 := (createEndDevice "PC1" emptyNetwork).2
  let n2 := (createEndDevice "PC2" n1).2
  let n3 := (createHub "H" n2).2
  (connectToHub 2 0 (connectDevices 0 1 n3)).2

/-- A single isolated end device `D` (id 0). -/
def soloNet : Network :=
  (createEndDevice "D" emptyNetwork).2

/-- One end device `PC1` (id 0) and one fresh hub `H` (id 1). -/
def miniNet : Network :=
  (createHub "H" (createEndDevice "PC1" emptyNetwork).2).2

/-! ## Basic lemmas about the arena updates -/

theorem updateAt_length {α : Type} (l : List α) (i : Nat) (f : α → α) :
    (updateAt l i f).length = l.length := by
  induction l generalizing i with
  | nil => rfl
  | cons a rest ih =>
    cases i with
    | zero => rfl
    | succ n => simpa [updateAt] using ih n

theorem getD_updateAt {α : Type} (l : List α) (i : Nat) (f : α → α)
    (j : Nat) (d : α) :
    (updateAt l i f).getD j d =
      if j = i ∧ i < l.length then f (l.getD j d) else l.getD j d := by
  induction l generalizing i j with
  | nil => simp [updateAt]
  | cons a rest ih =>
    cases i with
    | zero =>
      cases j with
      | zero => simp [updateAt]
      | succ m => simp [updateAt]
    | succ n =>
      cases j with
      | zero => simp [updateAt]
      | succ m =>
        simp only [updateAt, List.getD_cons_succ, ih,
          List.length_cons]
        congr 1
        simp [Nat.succ_lt_succ_iff]

theorem device_updateDevice (net : Network) (i : Nat) (f : Device → Device)
    (j : Nat) :
    (net.updateDevice i f).device j =
      if j = i ∧ i < net.devices.length then f (net.device j)
      else net.device j := by
  simp only [Network.updateDevice, Network.device]
  exact getD_updateAt _ _ _ _ _

theorem device_logTo (net : Network) (i : Nat) (e : String) (j : Nat) :
    (net.logTo i e).device j =
      if j = i ∧ i < net.devices.length then
        { net.device j with log := (net.device j).log ++ [e] }
      else net.device j := by
  simp [Network.logTo, device_updateDevice]

theorem devices_length_updateDevice (net : Network) (i : Nat)
    (f : Device → Device) :
    (net.updateDevice i f).devices.length = net.devices.length := by
  simp [Network.updateDevice, updateAt_length]

theorem devices_length_logTo (net : Network) (i : Nat) (e : String) :
    (net.logTo i e).devices.length = net.devices.length := by
  simp [Network.logTo, devices_length_updateDevice]

/-! ## Skeleton preservation: the forwarding engine only appends to logs -/

/-- `net'` has the same devices as `net` in every field except possibly the
logs (and the same arena size). -/
def Network.sameSkeleton (net net' : Network) : Prop :=
  net'.devices.length = net.devices.length ∧
  ∀ j, ((net'.device j).kind = (net.device j).kind) ∧
    ((net'.device j).name = (net.device j).name) ∧
    ((net'.device j).connections = (net.device j).connections) ∧
    ((net'.device j).connectedDevices = (net.device j).connectedDevices) ∧
    ((net'.device j).nextPort = (net.device j).nextPort)

theorem sameSkeleton_refl (net : Network) : net.sameSkeleton net :=
  ⟨rfl, fun _ => ⟨rfl, rfl, rfl, rfl, rfl⟩⟩

theorem sameSkeleton_trans {n1 n2 n3 : Network}
    (h12 : n1.sameSkeleton n2) (h23 : n2.sameSkeleton n3) :
    n1.sameSkeleton n3 := by
  obtain ⟨hl12, hf12⟩ := h12
  obtain ⟨hl23, hf23⟩ := h23
  refine ⟨hl23.trans hl12, fun j => ?_⟩
  obtain ⟨k1, m1, c1, d1, p1⟩ := hf12 j
  obtain ⟨k2, m2, c2, d2, p2⟩ := hf23 j
  exact ⟨k2.trans k1, m2.trans m1, c2.trans c1, d2.trans d1, p2.trans p1⟩

theorem sameSkeleton_logTo (net : Network) (i : Nat) (e : String) :
    net.sameSkeleton (net.logTo i e) := by
  refine ⟨devices_length_logTo net i e, fun j => ?_⟩
  rw [device_logTo]
  split <;> exact ⟨rfl, rfl, rfl, rfl, rfl⟩

/-- A forwarding step only appends to logs. -/
abbrev SkeletonPres
    (recv : Network → Nat → String → Int → String →
      Network × List Delivery) : Prop :=
  ∀ (net : Network) (d : Nat) (data : String) (p : Int) (s : String),
    net.sameSkeleton (recv net d data p s).1

theorem forwardConns_skeleton
    {recv : Network → Nat → String → Int → String → Network × List Delivery}
    (hrecv : SkeletonPres recv) (net : Network) (hubId : Nat)
    (conns : List Connection) (data : String) (ip : Int) (s : String) :
    net.sameSkeleton (forwardConns recv net hubId conns data ip s).1 := by
  induction conns generalizing net with
  | nil => exact sameSkeleton_refl net
  | cons c rest ih =>
    simp only [forwardConns]
    split
    · cases hO : c.getOtherDevice hubId with
      | none => simp only [hO]; exact ih net
      | some other =>
        simp only [hO]
        exact sameSkeleton_trans (hrecv net other data (c.getPortNumber other) s)
          (sameSkeleton_trans (sameSkeleton_logTo _ _ _) (ih _))
    · exact ih net

theorem busForward_skeleton
    {recv : Network → Nat → String → Int → String → Network × List Delivery}
    (hrecv : SkeletonPres recv) (net : Network) (busId : Nat)
    (rem : List Nat) (conns : List Connection) (i : Nat)
    (data : String) (ip : Int) (s : String) :
    net.sameSkeleton (busForward recv net busId rem conns i data ip s).1 := by
  induction rem generalizing net i with
  | nil => exact sameSkeleton_refl net
  | cons d rest ih =>
    simp only [busForward]
    split
    · cases hC : conns[i]? with
      | none => simp only [hC]; exact ih net (i + 1)
      | some c =>
        simp only [hC]
        exact sameSkeleton_trans (hrecv net d data (c.getPortNumber d) s)
          (sameSkeleton_trans (sameSkeleton_logTo _ _ _) (ih _ _))
    · exact ih net (i + 1)

theorem receiveData_skeleton (fuel : Nat) : SkeletonPres (receiveData fuel) := by
  induction fuel with
  | zero => intro net d data p s; exact sameSkeleton_refl net
  | succ fuel ih =>
    intro net d data p s
    simp only [receiveData]
    split
    · exact sameSkeleton_logTo _ _ _
    · exact sameSkeleton_trans (sameSkeleton_logTo _ _ _)
        (forwardConns_skeleton ih _ _ _ _ _ _)
    · exact sameSkeleton_trans (sameSkeleton_logTo _ _ _)
        (busForward_skeleton ih _ _ _ _ _ _ _ _)

theorem sendConns_skeleton
    {recv : Network → Nat → String → Int → String → Network × List Delivery}
    (hrecv : SkeletonPres recv) (net : Network) (devId : Nat)
    (conns : List Connection) (data : String) :
    net.sameSkeleton (sendConns recv net devId conns data).1 := by
  induction conns generalizing net with
  | nil => exact sameSkeleton_refl net
  | cons c rest ih =>
    simp only [sendConns]
    cases hO : c.getOtherDevice devId with
    | none => simp only [hO]; exact ih net
    | some receiver =>
      simp only [hO]
      exact sameSkeleton_trans
        (hrecv net receiver data (c.getPortNumber receiver) _) (ih _)

theorem sendData_skeleton (fuel : Nat) (net : Network) (dev : Nat)
    (data : String) : net.sameSkeleton (sendData fuel net dev data).1 := by
  simp only [sendData]
  split
  · split
    · exact sameSkeleton_logTo _ _ _
    · exact sameSkeleton_trans (sameSkeleton_logTo _ _ _)
        (sendConns_skeleton (receiveData_skeleton fuel) _ _ _ _)
  · exact sameSkeleton_logTo _ _ _
  · exact sameSkeleton_logTo _ _ _

/-! ## Sender attribution: the engine never rewrites the sender argument -/

/-- Every delivery a forwarding step performs carries the sender name it was
itself invoked with. -/
abbrev SenderInv
    (recv : Network → Nat → String → Int → String →
      Network × List Delivery) : Prop :=
  ∀ (net : Network) (d : Nat) (data : String) (p : Int) (s : String),
    ∀ del ∈ (recv net d data p s).2, del.sender = s

theorem forwardConns_sender
    {recv : Network → Nat → String → Int → String → Network × List Delivery}
    (hrecv : SenderInv recv) (net : Network) (hubId : Nat)
    (conns : List Connection) (data : String) (ip : Int) (s : String) :
    ∀ del ∈ (forwardConns recv net hubId conns data ip s).2, del.sender = s := by
  induction conns generalizing net with
  | nil => intro del h; simp [forwardConns] at h
  | cons c rest ih =>
    intro del h
    simp only [forwardConns] at h
    split at h
    · cases hO : c.getOtherDevice hubId with
      | none => simp only [hO] at h; exact ih net del h
      | some other =>
        simp only [hO, List.mem_cons, List.mem_append] at h
        rcases h with (h | h) | h
        · simp [h]
        · exact hrecv net other data (c.getPortNumber other) s del h
        · exact ih _ del h
    · exact ih net del h

theorem busForward_sender
    {recv : Network → Nat → String → Int → String → Network × List Delivery}
    (hrecv : SenderInv recv) (net : Network) (busId : Nat)
    (rem : List Nat) (conns : List Connection) (i : Nat)
    (data : String) (ip : Int) (s : String) :
    ∀ del ∈ (busForward recv net busId rem conns i data ip s).2,
      del.sender = s := by
  induction rem generalizing net i with
  | nil => intro del h; simp [busForward] at h
  | cons d rest ih =>
    intro del h
    simp only [busForward] at h
    split at h
    · cases hC : conns[i]? with
      | none => simp only [hC] at h; exact ih net (i + 1) del h
      | some c =>
        simp only [hC, List.mem_cons, List.mem_append] at h
        rcases h with (h | h) | h
        · simp [h]
        · exact hrecv net d data (c.getPortNumber d) s del h
        · exact ih _ _ del h
    · exact ih net (i + 1) del h

theorem receiveData_sender (fuel : Nat) : SenderInv (receiveData fuel) := by
  induction fuel with
  | zero => intro net d data p s del h; simp [receiveData] at h
  | succ fuel ih =>
    intro net d data p s del h
    simp only [receiveData] at h
    split at h
    · simp at h
    · exact forwardConns_sender ih _ _ _ _ _ _ del h
    · exact busForward_sender ih _ _ _ _ _ _ _ _ del h

theorem sendConns_sender
    {recv : Network → Nat → String → Int → String → Network × List Delivery}
    (hskel : SkeletonPres recv) (hrecv : SenderInv recv)
    (net : Network) (devId : Nat) (conns : List Connection) (data : String) :
    ∀ del ∈ (sendConns recv net devId conns data).2,
      del.sender = (net.device devId).name := by
  induction conns generalizing net with
  | nil => intro del h; simp [sendConns] at h
  | cons c rest ih =>
    intro del h
    simp only [sendConns] at h
    cases hO : c.getOtherDevice devId with
    | none => simp only [hO] at h; exact ih net del h
    | some receiver =>
      simp only [hO, List.mem_cons, List.mem_append] at h
      rcases h with (h | h) | h
      · simp [h]
      · exact hrecv net receiver data (c.getPortNumber receiver) _ del h
      · have hn := ((hskel net receiver data (c.getPortNumber receiver)
          ((net.device devId).name)).2 devId).2.1
        exact (ih _ del h).trans hn

/-- Every delivery performed anywhere during `sendData` carries the
originating device's name as the sender. -/
theorem sendData_sender (fuel : Nat) (net : Network) (dev : Nat)
    (data : String) :
    ∀ del ∈ (sendData fuel net dev data).2,
      del.sender = (net.device dev).name := by
  intro del h
  simp only [sendData] at h
  split at h
  · split at h
    · simp at h
    · have hn := ((sameSkeleton_logTo net dev (sendingEntry data)).2 dev).2.1
      exact (sendConns_sender (receiveData_skeleton fuel)
        (receiveData_sender fuel) _ _ _ _ del h).trans hn
  · simp at h
  · simp at h

/-! ## The repeater broadcast trace on attachment-shaped states -/

theorem kind_of_skeleton {n1 n2 : Network} (hs : n1.sameSkeleton n2)
    (j : Nat) : (n2.device j).kind = (n1.device j).kind :=
  (hs.2 j).1

theorem receiveData_endDevice (fuel : Nat) (net : Network) (d : Nat)
    (data : String) (p : Int) (s : String)
    (hk : (net.device d).kind = .endDevice) :
    receiveData (fuel + 1) net d data p s =
      (net.logTo d (endReceiveEntry s p data), []) := by
  simp only [receiveData, hk]

theorem forwardConns_attachFrom (fuel : Nat) (h : Nat) (data s : String)
    (k : Int) :
    ∀ (ds : List Nat) (j : Nat) (net : Network),
      (∀ d ∈ ds, (net.device d).kind = .endDevice ∧ d ≠ h) →
      (forwardConns (receiveData (fuel + 1)) net h (attachFrom h j ds)
        data k s).2 = deliveriesFrom k s data j ds := by
  intro ds
  induction ds with
  | nil =>
    intro j net _
    simp [attachFrom, forwardConns, deliveriesFrom]
  | cons d rest ih =>
    intro j net hds
    have hkind : (net.device d).kind = .endDevice := (hds d (by simp)).1
    have hne : d ≠ h := (hds d (by simp)).2
    have hrest : ∀ e ∈ rest, (net.device e).kind = .endDevice ∧ e ≠ h :=
      fun e he => hds e (by simp [he])
    simp only [attachFrom, forwardConns, deliveriesFrom]
    have hport : Connection.getPortNumber ⟨h, d, (j : Int), 0⟩ h = (j : Int) := by
      simp [Connection.getPortNumber]
    have hother : Connection.getOtherDevice ⟨h, d, (j : Int), 0⟩ h = some d := by
      simp [Connection.getOtherDevice]
    have hoport : Connection.getPortNumber ⟨h, d, (j : Int), 0⟩ d = 0 := by
      simp [Connection.getPortNumber, hne]
    rw [hport, hother]
    by_cases hj : (j : Int) = k
    · simp only [hj, ite_not, if_pos rfl, if_neg (by simp : ¬ k ≠ k)]
      exact ih (j + 1) net hrest
    · rw [if_pos (by exact hj : ((j : Int) ≠ k)), if_neg hj]
      simp only [hoport, receiveData_endDevice fuel net d data 0 s hkind]
      have hsk : net.sameSkeleton
          (((net.logTo d (endReceiveEntry s 0 data))).logTo h
            (hubForwardEntry
              (((net.logTo d (endReceiveEntry s 0 data))).device d).name
              (j : Int) data)) :=
        sameSkeleton_trans (sameSkeleton_logTo _ _ _) (sameSkeleton_logTo _ _ _)
      have hrest2 : ∀ e ∈ rest,
          ((((net.logTo d (endReceiveEntry s 0 data))).logTo h
            (hubForwardEntry
              (((net.logTo d (endReceiveEntry s 0 data))).device d).name
              (j : Int) data)).device e).kind = .endDevice ∧ e ≠ h :=
        fun e he => ⟨(kind_of_skeleton hsk e).trans (hrest e he).1, (hrest e he).2⟩
      simp only [ih (j + 1) _ hrest2]
      simp

theorem attachFrom_getElem (b : Nat) :
    ∀ (ds : List Nat) (j i : Nat),
      (attachFrom b j ds)[i]? =
        ds[i]?.map (fun d => (⟨b, d, ((j + i : Nat) : Int), 0⟩ : Connection)) := by
  intro ds
  induction ds with
  | nil => intro j i; simp [attachFrom]
  | cons d rest ih =>
    intro j i
    cases i with
    | zero => simp [attachFrom]
    | succ m =>
      have e : j + 1 + m = j + (m + 1) := by omega
      simp only [attachFrom, List.getElem?_cons_succ, ih (j + 1) m, e]

theorem busForward_attachFrom (fuel : Nat) (b : Nat) (data s : String)
    (k : Int) :
    ∀ (suf pre : List Nat) (net : Network),
      (∀ d ∈ pre ++ suf, (net.device d).kind = .endDevice ∧ d ≠ b) →
      (busForward (receiveData (fuel + 1)) net b suf
        (attachFrom b 0 (pre ++ suf)) pre.length data k s).2
        = deliveriesFrom k s data pre.length suf := by
  intro suf
  induction suf with
  | nil => intro pre net _; simp [busForward, deliveriesFrom]
  | cons d rest ih =>
    intro pre net hds
    have hkind : (net.device d).kind = .endDevice := (hds d (by simp)).1
    have hne : d ≠ b := (hds d (by simp)).2
    have hidx : (attachFrom b 0 (pre ++ d :: rest))[pre.length]? =
        some ⟨b, d, (pre.length : Int), 0⟩ := by
      rw [attachFrom_getElem]
      have hmid : (pre ++ d :: rest)[pre.length]? = some d := by
        rw [List.getElem?_append_right (le_refl _)]
        simp
      rw [hmid]
      simp
    have hsplit : pre ++ d :: rest = (pre ++ [d]) ++ rest := by simp
    have hlen : pre.length + 1 = (pre ++ [d]).length := by simp
    simp only [busForward, deliveriesFrom]
    by_cases hj : ((pre.length : Int) = k)
    · rw [if_neg (not_not_intro hj), if_pos hj]
      rw [hsplit, hlen]
      exact ih (pre ++ [d]) net (fun e he => hds e (by simpa using he))
    · rw [if_pos (by exact hj : ((pre.length : Int) ≠ k)), if_neg hj]
      have hoport : Connection.getPortNumber
          ⟨b, d, (pre.length : Int), 0⟩ d = 0 := by
        simp [Connection.getPortNumber, hne]
      simp only [hidx, hoport,
        receiveData_endDevice fuel net d data 0 s hkind]
      have hsk : net.sameSkeleton
          (((net.logTo d (endReceiveEntry s 0 data))).logTo b
            (busForwardEntry
              (((net.logTo d (endReceiveEntry s 0 data))).device d).name
              data)) :=
        sameSkeleton_trans (sameSkeleton_logTo _ _ _) (sameSkeleton_logTo _ _ _)
      have hrest2 : ∀ e ∈ (pre ++ [d]) ++ rest,
          ((((net.logTo d (endReceiveEntry s 0 data))).logTo b
            (busForwardEntry
              (((net.logTo d (endReceiveEntry s 0 data))).device d).name
              data)).device e).kind = .endDevice ∧ e ≠ b :=
        fun e he =>
          ⟨(kind_of_skeleton hsk e).trans (hds e (by simpa using he)).1,
            (hds e (by simpa using he)).2⟩
      rw [hsplit, hlen]
      simp only [ih (pre ++ [d]) _ hrest2]
      simp

/-- `Hub::receiveData` on a hub whose connection list is exactly an
attachment sequence of end devices: the deliveries are one per slot whose
hub-side port differs from the arrival port, in slot order, each on the
attached device's own port 0, carrying the incoming sender name. -/
theorem hubReceiveTrace (fuel : Nat) (net : Network) (h : Nat)
    (ds : List Nat) (data s : String) (k : Int)
    (hk : (net.device h).kind = .hub)
    (hc : (net.device h).connections = attachFrom h 0 ds)
    (hds : ∀ d ∈ ds, (net.device d).kind = .endDevice) :
    (receiveData (fuel + 2) net h data k s).2 = deliveriesFrom k s data 0 ds := by
  have hne : ∀ d ∈ ds, d ≠ h := by
    intro d hd heq
    have := hds d hd
    rw [heq, hk] at this
    cases this
  simp only [receiveData, hk]
  have hsk := sameSkeleton_logTo net h (repeaterReceiveEntry s k data)
  have hc1 : ((net.logTo h (repeaterReceiveEntry s k data)).device h).connections
      = attachFrom h 0 ds := ((hsk.2 h).2.2.1).trans hc
  rw [hc1]
  exact forwardConns_attachFrom fuel h data s k ds 0 _
    (fun d hd => ⟨(kind_of_skeleton hsk d).trans (hds d hd), hne d hd⟩)

/-- `Bus::receiveData` on a bus whose attachment list and connection list
are exactly an attachment sequence of end devices: same delivery pattern as
the hub. -/
theorem busReceiveTrace (fuel : Nat) (net : Network) (b : Nat)
    (ds : List Nat) (data s : String) (k : Int)
    (hk : (net.device b).kind = .bus)
    (hd : (net.device b).connectedDevices = ds)
    (hc : (net.device b).connections = attachFrom b 0 ds)
    (hds : ∀ d ∈ ds, (net.device d).kind = .endDevice) :
    (receiveData (fuel + 2) net b data k s).2 = deliveriesFrom k s data 0 ds := by
  have hne : ∀ d ∈ ds, d ≠ b := by
    intro d hdm heq
    have := hds d hdm
    rw [heq, hk] at this
    cases this
  simp only [receiveData, hk]
  have hsk := sameSkeleton_logTo net b (repeaterReceiveEntry s k data)
  have hc1 : ((net.logTo b (repeaterReceiveEntry s k data)).device b).connections
      = attachFrom b 0 ds := ((hsk.2 b).2.2.1).trans hc
  have hd1 : ((net.logTo b (repeaterReceiveEntry s k data)).device b).connectedDevices
      = ds := ((hsk.2 b).2.2.2.1).trans hd
  rw [hc1, hd1]
  have := busForward_attachFrom fuel b data s k ds [] _
    (fun d hdm => ⟨(kind_of_skeleton hsk d).trans
      (hds d (by simpa using hdm)), hne d (by simpa using hdm)⟩)
  simpa using this

/-! ## Characterizing attachment folds (`Hub::connectDevice` sequences) -/

theorem connectToHub_ret (h d : Nat) (net : Network) :
    (connectToHub h d net).1 = ((net.device h).nextPort : Int) := rfl

theorem connectToHub_length (h d : Nat) (net : Network) :
    (connectToHub h d net).2.devices.length = net.devices.length := by
  simp [connectToHub, devices_length_updateDevice]

theorem connectToHub_device_h (h d : Nat) (net : Network) (hne : d ≠ h)
    (hlt : h < net.devices.length) :
    (connectToHub h d net).2.device h =
      { net.device h with
        nextPort := (net.device h).nextPort + 1,
        connections := (net.device h).connections ++
          [⟨h, d, ((net.device h).nextPort : Int), 0⟩] } := by
  simp only [connectToHub, device_updateDevice]
  rw [if_neg (fun hh => hne hh.1.symm)]
  simp [hlt]

theorem connectToHub_kind (h d : Nat) (net : Network) (j : Nat) :
    ((connectToHub h d net).2.device j).kind = (net.device j).kind := by
  simp only [connectToHub, device_updateDevice]
  split <;> split <;> rfl

theorem connectToHub_name (h d : Nat) (net : Network) (j : Nat) :
    ((connectToHub h d net).2.device j).name = (net.device j).name := by
  simp only [connectToHub, device_updateDevice]
  split <;> split <;> rfl

theorem attachAll_spec (h : Nat) :
    ∀ (ds : List Nat) (net : Network),
      h < net.devices.length →
      (∀ e ∈ ds, e ≠ h) →
      (attachAll h ds net).1 =
        (List.range' (net.device h).nextPort ds.length).map Int.ofNat ∧
      ((attachAll h ds net).2.device h).nextPort =
        (net.device h).nextPort + ds.length ∧
      ((attachAll h ds net).2.device h).connections =
        (net.device h).connections ++
          attachFrom h (net.device h).nextPort ds ∧
      (attachAll h ds net).2.devices.length = net.devices.length ∧
      (∀ j, ((attachAll h ds net).2.device j).kind = (net.device j).kind) ∧
      (∀ j, ((attachAll h ds net).2.device j).name = (net.device j).name) := by
  intro ds
  induction ds with
  | nil =>
    intro net _ _
    refine ⟨rfl, ?_, ?_, rfl, fun _ => rfl, fun _ => rfl⟩
    · simp [attachAll]
    · simp [attachAll, attachFrom]
  | cons d rest ih =>
    intro net hlt hne
    have hdne : d ≠ h := hne d (by simp)
    have hrne : ∀ e ∈ rest, e ≠ h := fun e he => hne e (by simp [he])
    have hlt1 : h < (connectToHub h d net).2.devices.length := by
      rw [connectToHub_length]; exact hlt
    have hdev := connectToHub_device_h h d net hdne hlt
    obtain ⟨ihp, ihn, ihc, ihl, ihk, ihm⟩ :=
      ih (connectToHub h d net).2 hlt1 hrne
    refine ⟨?_, ?_, ?_, ?_, ?_, ?_⟩
    · simp only [attachAll]
      rw [ihp, connectToHub_ret, hdev]
      simp only [List.length_cons, List.range'_succ _ _ 1, List.map_cons]
      rfl
    · simp only [attachAll]
      rw [ihn, hdev]
      simp only [List.length_cons]
      omega
    · simp only [attachAll]
      rw [ihc, hdev]
      simp only [attachFrom, List.append_assoc, List.singleton_append]
    · simp only [attachAll]
      rw [ihl, connectToHub_length]
    · intro j
      simp only [attachAll]
      rw [ihk j, connectToHub_kind]
    · intro j
      simp only [attachAll]
      rw [ihm j, connectToHub_name]

/-! ## Claim theorems -/

/-- **C1** — Repeater broadcast exclusion.  For every Hub (and every Bus)
whose attachment state is an attach-sequence of end devices at repeater-side
ports `0..n-1`, `receiveData(payload, k, sender)` produces exactly one
delivery per attached slot whose repeater-side port differs from `k`, in
slot order, and no delivery through the slot whose port equals `k`
(`deliveriesFrom` is precisely that delivery list). -/
theorem repeater_broadcast_exclusion :
    (∀ (fuel : Nat) (net : Network) (h : Nat) (ds : List Nat)
        (data s : String) (k : Int),
      (net.device h).kind = .hub →
      (net.device h).connections = attachFrom h 0 ds →
      (∀ d ∈ ds, (net.device d).kind = .endDevice) →
      (receiveData (fuel + 2) net h data k s).2 =
        deliveriesFrom k s data 0 ds) ∧
    (∀ (fuel : Nat) (net : Network) (b : Nat) (ds : List Nat)
        (data s : String) (k : Int),
      (net.device b).kind = .bus →
      (net.device b).connectedDevices = ds →
      (net.device b).connections = attachFrom b 0 ds →
      (∀ d ∈ ds, (net.device d).kind = .endDevice) →
      (receiveData (fuel + 2) net b data k s).2 =
        deliveriesFrom k s data 0 ds) :=
  ⟨fun fuel net h ds data s k hk hc hds =>
      hubReceiveTrace fuel net h ds data s k hk hc hds,
    fun fuel net b ds data s k hk hd hc hds =>
      busReceiveTrace fuel net b ds data s k hk hd hc hds⟩

/-- Witness for C1: the star hub with arrival port 0, and a three-device
bus with arrival port 1, both evaluated concretely. -/
theorem repeater_broadcast_exclusion_witness :
    ((starNet.device 3).kind = .hub ∧
      (starNet.device 3).connections = attachFrom 3 0 [0, 1, 2] ∧
      (∀ d ∈ [0, 1, 2], (starNet.device d).kind = .endDevice) ∧
      (receiveData 2 starNet 3 "hi" 0 "PC1").2 =
        [⟨1, 0, "PC1", "hi"⟩, ⟨2, 0, "PC1", "hi"⟩]) ∧
    (deliveriesFrom 0 "PC1" "hi" 0 [0, 1, 2] =
      [⟨1, 0, "PC1", "hi"⟩, ⟨2, 0, "PC1", "hi"⟩]) :=
  ⟨⟨by decide, by decide, by decide, by
      rw [show (2 : Nat) = 0 + 2 from rfl,
        repeater_broadcast_exclusion.1 0 starNet 3 [0, 1, 2] "hi" "PC1" 0
          (by decide) (by decide) (by decide)]
      decide⟩,
    by decide⟩

/-- **C2** — Sender attribution persists through repeaters.  First: in any
topology, every delivery performed anywhere during `sendData` (at arbitrary
repeater depth) carries the originating device's name as the sender-name
argument — never an intermediate repeater's name.  Second: concretely, a
payload sent by `A` through the two-hub chain reaches terminal `D`, whose
log records sender `A`. -/
theorem sender_attribution_persists :
    (∀ (fuel : Nat) (net : Network) (dev : Nat) (data : String),
      ∀ del ∈ (sendData fuel net dev data).2,
        del.sender = (net.device dev).name) ∧
    ((sendData 3 chainNet 0 "X").2 =
        [⟨1, 1, "A", "X"⟩, ⟨2, 0, "A", "X"⟩, ⟨4, 0, "A", "X"⟩] ∧
      ((sendData 3 chainNet 0 "X").1.device 4).log =
        ["RECEIVED from A on port 0: X"]) :=
  ⟨fun fuel net dev data => sendData_sender fuel net dev data,
    by decide, by decide⟩

/-- Witness for C2: the delivery the chain performs at terminal `D`
(id 4) carries the sender name of the originating device `A` (id 0). -/
theorem sender_attribution_persists_witness :
    (⟨4, 0, "A", "X"⟩ : Delivery) ∈ (sendData 3 chainNet 0 "X").2 ∧
    (⟨4, 0, "A", "X"⟩ : Delivery).sender = (chainNet.device 0).name :=
  ⟨by decide,
    sender_attribution_persists.1 3 chainNet 0 "X" ⟨4, 0, "A", "X"⟩
      (by decide)⟩

/-- Counterexample to **C3** as stated: in the star topology the claim
predicts `PC2.receive("hi", port 1, "PC1")` and
`PC3.receive("hi", port 2, "PC1")`, but no delivery to `PC2` (id 1) arrives
on port 1 and none to `PC3` (id 2) on port 2 — the arrival-port arguments
are both 0 (the device-side port of a hub attachment is always 0; ports 1
and 2 are the hub-side ports). -/
theorem star_scenario_counterexample :
    (⟨1, 1, "PC1", "hi"⟩ : Delivery) ∉ (sendData 3 starNet 0 "hi").2 ∧
    (⟨2, 2, "PC1", "hi"⟩ : Delivery) ∉ (sendData 3 starNet 0 "hi").2 ∧
    (sendData 3 starNet 0 "hi").2 =
      [⟨3, 0, "PC1", "hi"⟩, ⟨1, 0, "PC1", "hi"⟩, ⟨2, 0, "PC1", "hi"⟩] := by
  decide

/-- **C3 (amended)** — star scenario with the arrival ports the code
actually passes: `PC1.send("hi")` makes `PC2` receive `("hi", port 0,
"PC1")` and `PC3` receive `("hi", port 0, "PC1")`, each exactly once, while
`PC1` itself receives nothing (its log holds only the `SENDING` line). -/
theorem star_scenario_amended :
    ((sendData 3 starNet 0 "hi").2.filter (fun del => del.dev == 1) =
      [⟨1, 0, "PC1", "hi"⟩]) ∧
    ((sendData 3 starNet 0 "hi").2.filter (fun del => del.dev == 2) =
      [⟨2, 0, "PC1", "hi"⟩]) ∧
    ((sendData 3 starNet 0 "hi").2.filter (fun del => del.dev == 0) = []) ∧
    ((sendData 3 starNet 0 "hi").1.device 1).log =
      ["RECEIVED from PC1 on port 0: hi"] ∧
    ((sendData 3 starNet 0 "hi").1.device 2).log =
      ["RECEIVED from PC1 on port 0: hi"] ∧
    ((sendData 3 starNet 0 "hi").1.device 0).log = [sendingEntry "hi"] := by
  decide

/-- Counterexample to **C4** as stated: with an absent/empty sender name the
record `EndDevice::receiveData` appends is `"RECEIVED on port 0: hi"` — the
sender clause is omitted entirely, not replaced by "unknown" (that
substitution exists only in the repeater logging edge, as the contrast
conjunct shows). -/
theorem endDevice_receive_unknown_counterexample :
    ((receiveData 1 soloNet 0 "hi" 0 "").1.device 0).log =
      ["RECEIVED on port 0: hi"] ∧
    ((receiveData 1 soloNet 0 "hi" 0 "").1.device 0).log ≠
      ["RECEIVED from unknown on port 0: hi"] ∧
    repeaterReceiveEntry "" 0 "hi" = "RECEIVED from unknown on port 0: hi" := by
  decide

/-- **C4 (amended)** — for every `EndDevice.receive(payload, port, sender)`
call: it unconditionally appends exactly one record to the device's message
history — `(sender, port, payload)` when the sender name is nonempty, and a
record with the sender omitted (no "unknown" substitution) when it is empty
— performs no forwarding (no deliveries), and leaves every other device
untouched. -/
theorem endDevice_receive_amended :
    ∀ (fuel : Nat) (net : Network) (d : Nat) (data s : String) (p : Int),
      (net.device d).kind = .endDevice →
      (receiveData (fuel + 1) net d data p s =
        (net.logTo d (endReceiveEntry s p data), []) ∧
       (d < net.devices.length →
        ((receiveData (fuel + 1) net d data p s).1.device d).log =
          (net.device d).log ++ [endReceiveEntry s p data]) ∧
       (∀ j, j ≠ d →
        (receiveData (fuel + 1) net d data p s).1.device j = net.device j)) := by
  intro fuel net d data s p hk
  have he := receiveData_endDevice fuel net d data p s hk
  refine ⟨he, fun hlt => ?_, fun j hj => ?_⟩
  · rw [he, device_logTo, if_pos ⟨rfl, hlt⟩]
  · rw [he, device_logTo, if_neg (fun hh => hj hh.1)]

/-- Witness for C4 (amended): a nonempty-sender call on the isolated end
device, evaluated concretely. -/
theorem endDevice_receive_amended_witness :
    (soloNet.device 0).kind = .endDevice ∧
    receiveData 1 soloNet 0 "hi" 0 "PC9" =
      (soloNet.logTo 0 (endReceiveEntry "PC9" 0 "hi"), []) ∧
    ((receiveData 1 soloNet 0 "hi" 0 "PC9").1.device 0).log =
      ["RECEIVED from PC9 on port 0: hi"] ∧
    ((receiveData 1 soloNet 0 "hi" 0 "PC9").1.device 5) = soloNet.device 5 :=
  ⟨by decide,
    (endDevice_receive_amended 0 soloNet 0 "hi" "PC9" 0 (by decide)).1,
    by decide,
    (endDevice_receive_amended 0 soloNet 0 "hi" "PC9" 0 (by decide)).2.2 5
      (by decide)⟩

/-- **C5** — Hub attachment ports.  On a fresh hub, the i-th attach returns
hub-side port i (`range`), so the returned ports are pairwise distinct; in
particular attaching the same end device twice yields ports 0 and 1, and a
payload arriving over the first attachment (port 0) is forwarded out through
the second: the broadcast delivers to the device exactly once, through the
other slot. -/
theorem hub_reattachment_ports :
    ∀ (net : Network) (h d : Nat) (ds : List Nat) (fuel : Nat)
      (data s : String),
      h < net.devices.length →
      (net.device h).kind = .hub →
      (net.device h).nextPort = 0 →
      (net.device h).connections = [] →
      (∀ e ∈ ds, e ≠ h) →
      (net.device d).kind = .endDevice →
      ((attachAll h ds net).1 = (List.range ds.length).map Int.ofNat ∧
       (attachAll h ds net).1.Nodup ∧
       (attachAll h [d, d] net).1 = [(0 : Int), 1] ∧
       (receiveData (fuel + 2) (attachAll h [d, d] net).2 h data 0 s).2 =
         [⟨d, 0, s, data⟩]) := by
  intro net h d ds fuel data s hlt hkh hp0 hc0 hne hkd
  have hdne : d ≠ h := by
    intro heq
    rw [heq, hkh] at hkd
    cases hkd
  obtain ⟨hports, _, _, _, _, _⟩ := attachAll_spec h ds net hlt hne
  obtain ⟨hports2, _, hconn2, _, hkind2, _⟩ :=
    attachAll_spec h [d, d] net hlt (by simp [hdne])
  have hran : (attachAll h ds net).1 =
      (List.range ds.length).map Int.ofNat := by
    rw [hports, hp0, List.range_eq_range']
  refine ⟨hran, ?_, ?_, ?_⟩
  · rw [hran]
    exact (List.nodup_range _).map (fun a b hab => Int.ofNat.inj hab)
  · rw [hports2, hp0]
    show (List.range' 0 2).map Int.ofNat = [(0 : Int), 1]
    decide
  · have hkh2 : ((attachAll h [d, d] net).2.device h).kind = .hub :=
      (hkind2 h).trans hkh
    have hconn2' : ((attachAll h [d, d] net).2.device h).connections =
        attachFrom h 0 [d, d] := by
      rw [hconn2, hc0, hp0]
      simp
    have hkd2 : ∀ e ∈ [d, d],
        ((attachAll h [d, d] net).2.device e).kind = .endDevice := by
      intro e he
      have : e = d := by simpa using he
      rw [this, hkind2 d, hkd]
    rw [hubReceiveTrace fuel _ h [d, d] data s 0 hkh2 hconn2' hkd2]
    simp [deliveriesFrom]

/-- Witness for C5: attaching `PC1` twice to the fresh hub of `miniNet`. -/
theorem hub_reattachment_ports_witness :
    (attachAll 1 [0, 0] miniNet).1 =
      (List.range 2).map Int.ofNat ∧
    (attachAll 1 [0, 0] miniNet).1.Nodup ∧
    (attachAll 1 [0, 0] miniNet).1 = [(0 : Int), 1] ∧
    (receiveData 2 (attachAll 1 [0, 0] miniNet).2 1 "m" 0 "x").2 =
      [⟨0, 0, "x", "m"⟩] := by
  have h := hub_reattachment_ports miniNet 1 0 [0, 0] 0 "m" "x"
    (by decide) (by decide) (by decide) (by decide) (by decide) (by decide)
  exact ⟨h.1, h.2.1, h.2.2.1, h.2.2.2⟩

/-- **C6** — No-connection send is non-fatal: an `EndDevice` with zero
attachments logs the `NoConnections` event to its own log, performs no
delivery, and every other device (hence all topology state) is unchanged;
`sendData` is total, so no error propagates to the caller. -/
theorem no_connection_send_nonfatal :
    ∀ (fuel : Nat) (net : Network) (dev : Nat) (data : String),
      (net.device dev).kind = .endDevice →
      (net.device dev).connections = [] →
      (sendData fuel net dev data =
        (net.logTo dev (noConnectionsEntry data), []) ∧
       (sendData fuel net dev data).2 = [] ∧
       (∀ j, j ≠ dev →
        (sendData fuel net dev data).1.device j = net.device j) ∧
       (dev < net.devices.length →
        ((sendData fuel net dev data).1.device dev).log =
          (net.device dev).log ++ [noConnectionsEntry data])) := by
  intro fuel net dev data hk hc
  have he : sendData fuel net dev data =
      (net.logTo dev (noConnectionsEntry data), []) := by
    simp [sendData, hk, hc]
  refine ⟨he, by rw [he], fun j hj => ?_, fun hlt => ?_⟩
  · rw [he, device_logTo, if_neg (fun hh => hj hh.1)]
  · rw [he, device_logTo, if_pos ⟨rfl, hlt⟩]

/-- Witness for C6: the isolated end device `D` of `soloNet`. -/
theorem no_connection_send_nonfatal_witness :
    sendData 4 soloNet 0 "msg" =
      (soloNet.logTo 0 (noConnectionsEntry "msg"), []) ∧
    ((sendData 4 soloNet 0 "msg").1.device 0).log =
      ["ERROR: No connections available to send data: msg"] ∧
    (sendData 4 soloNet 0 "msg").1.device 7 = soloNet.device 7 :=
  ⟨(no_connection_send_nonfatal 4 soloNet 0 "msg" (by decide) (by decide)).1,
    by decide,
    (no_connection_send_nonfatal 4 soloNet 0 "msg" (by decide)
      (by decide)).2.2.1 7 (by decide)⟩

/-- Counterexample to **C7** as stated: in `dupPortNet` — reachable via
`createEndDevice`, `createHub`, `connectDevices`, `connectToHub` — the two
connections attached to `PC1` (id 0) both assign it port 0 on its own side
(direct links use port 0 on both sides, and the device side of a hub
attachment is always port 0), so per-device port uniqueness fails. -/
theorem port_uniqueness_counterexample :
    devicePorts dupPortNet 0 = [0, 0] ∧
    ¬ (devicePorts dupPortNet 0).Nodup := by
  decide

theorem attachFrom_ports (h : Nat) :
    ∀ (ds : List Nat) (j : Nat),
      (attachFrom h j ds).map (fun c => c.getPortNumber h) =
        (List.range' j ds.length).map Int.ofNat := by
  intro ds
  induction ds with
  | nil => intro j; simp [attachFrom]
  | cons d rest ih =>
    intro j
    simp only [attachFrom, List.map_cons, List.length_cons,
      List.range'_succ _ _ 1, ih (j + 1)]
    simp [Connection.getPortNumber]

/-- **C7 (amended)** — per-device port uniqueness does not hold in general
(the attached device's own side of every repeater attachment is port 0, and
direct links use port 0 on both sides); what does hold is hub-side
uniqueness per hub: the connections a single fresh Hub accumulates through
its own attach sequence assign the hub pairwise-distinct hub-side ports
0..n-1. -/
theorem hub_side_port_uniqueness :
    ∀ (net : Network) (h : Nat) (ds : List Nat),
      h < net.devices.length →
      (net.device h).nextPort = 0 →
      (net.device h).connections = [] →
      (∀ e ∈ ds, e ≠ h) →
      (devicePorts (attachAll h ds net).2 h =
        (List.range ds.length).map Int.ofNat ∧
       (devicePorts (attachAll h ds net).2 h).Nodup) := by
  intro net h ds hlt hp0 hc0 hne
  obtain ⟨_, _, hconn, _, _, _⟩ := attachAll_spec h ds net hlt hne
  have hp : devicePorts (attachAll h ds net).2 h =
      (List.range ds.length).map Int.ofNat := by
    rw [devicePorts, hconn, hc0, hp0]
    simp only [List.nil_append]
    rw [attachFrom_ports, List.range_eq_range']
  exact ⟨hp, by
    rw [hp]
    exact (List.nodup_range _).map (fun a b hab => Int.ofNat.inj hab)⟩

/-- Witness for C7 (amended): the fresh hub of `miniNet` after attaching
`PC1` three times. -/
theorem hub_side_port_uniqueness_witness :
    devicePorts (attachAll 1 [0, 0, 0] miniNet).2 1 =
      (List.range 3).map Int.ofNat ∧
    (devicePorts (attachAll 1 [0, 0, 0] miniNet).2 1).Nodup :=
  hub_side_port_uniqueness miniNet 1 [0, 0, 0] (by decide) (by decide)
    (by decide) (by decide)

/-- **C8** — Endpoint resolution.  For a device that is neither endpoint,
`resolveOtherEndpoint` fails (`none`, the C++ `nullptr`) and `getPortNumber`
returns the `-1` sentinel — the `NotAnEndpoint` contract violation; for an
endpoint of a connection with two distinct endpoints, `resolveOtherEndpoint`
returns the opposite endpoint with that endpoint's port, and
`getPortNumber` returns the queried device's own port. -/
theorem endpoint_resolution :
    ∀ (c : Connection) (d : Nat),
      ((d ≠ c.deviceA ∧ d ≠ c.deviceB) →
        resolveOtherEndpoint c d = none ∧ c.getOtherDevice d = none ∧
          c.getPortNumber d = -1) ∧
      (d = c.deviceA → c.deviceA ≠ c.deviceB →
        resolveOtherEndpoint c d = some (c.deviceB, c.portB) ∧
          c.getPortNumber d = c.portA) ∧
      (d = c.deviceB → c.deviceA ≠ c.deviceB →
        resolveOtherEndpoint c d = some (c.deviceA, c.portA) ∧
          c.getPortNumber d = c.portB) := by
  intro c d
  refine ⟨fun hd => ?_, fun h1 h2 => ?_, fun h1 h2 => ?_⟩
  · simp [resolveOtherEndpoint, Connection.getOtherDevice,
      Connection.getPortNumber, hd.1, hd.2]
  · subst h1
    simp [resolveOtherEndpoint, Connection.getOtherDevice,
      Connection.getPortNumber, h2, Ne.symm h2]
  · subst h1
    have h2' : c.deviceB ≠ c.deviceA := Ne.symm h2
    simp [resolveOtherEndpoint, Connection.getOtherDevice,
      Connection.getPortNumber, h2, h2']

/-- Witness for C8 on the connection `⟨0, 1, 5, 7⟩`: device 2 is not an
endpoint (failure sentinels), devices 0 and 1 resolve to each other. -/
theorem endpoint_resolution_witness :
    (resolveOtherEndpoint ⟨0, 1, 5, 7⟩ 2 = none ∧
      Connection.getOtherDevice ⟨0, 1, 5, 7⟩ 2 = none ∧
      Connection.getPortNumber ⟨0, 1, 5, 7⟩ 2 = -1) ∧
    (resolveOtherEndpoint ⟨0, 1, 5, 7⟩ 0 = some (1, 7) ∧
      Connection.getPortNumber ⟨0, 1, 5, 7⟩ 0 = 5) ∧
    (resolveOtherEndpoint ⟨0, 1, 5, 7⟩ 1 = some (0, 5) ∧
      Connection.getPortNumber ⟨0, 1, 5, 7⟩ 1 = 7) :=
  ⟨(endpoint_resolution ⟨0, 1, 5, 7⟩ 2).1 (by decide),
    (endpoint_resolution ⟨0, 1, 5, 7⟩ 0).2.1 rfl (by decide),
    (endpoint_resolution ⟨0, 1, 5, 7⟩ 1).2.2 rfl (by decide)⟩

/-- **C9** — Repeater `send` is a logged no-op: a Hub (resp. Bus) only
appends the unsupported-operation line to its own log; there is no delivery,
every other device is unchanged, and `sendData` returns normally. -/
theorem repeater_send_unsupported :
    ∀ (fuel : Nat) (net : Network) (dev : Nat) (data : String),
      ((net.device dev).kind = .hub →
        sendData fuel net dev data =
          (net.logTo dev (hubUnsupportedEntry data), [])) ∧
      ((net.device dev).kind = .bus →
        sendData fuel net dev data =
          (net.logTo dev (busUnsupportedEntry data), [])) ∧
      ((net.device dev).kind = .hub ∨ (net.device dev).kind = .bus →
        (sendData fuel net dev data).2 = [] ∧
        ∀ j, j ≠ dev →
          (sendData fuel net dev data).1.device j = net.device j) := by
  intro fuel net dev data
  refine ⟨fun hk => by simp [sendData, hk], fun hk => by simp [sendData, hk],
    fun hk => ?_⟩
  rcases hk with hk | hk <;>
    refine ⟨by simp [sendData, hk], fun j hj => ?_⟩ <;>
    simp only [sendData, hk] <;>
    rw [device_logTo, if_neg (fun hh => hj hh.1)]

/-- Witness for C9: the hub of `starNet` and a concrete bus. -/
theorem repeater_send_unsupported_witness :
    sendData 5 starNet 3 "oops" =
      (starNet.logTo 3 (hubUnsupportedEntry "oops"), []) ∧
    ((sendData 5 starNet 3 "oops").1.device 3).log =
      ["ERROR: Hubs don't initiate data sending: oops"] ∧
    (sendData 5 starNet 3 "oops").1.device 0 = starNet.device 0 :=
  ⟨(repeater_send_unsupported 5 starNet 3 "oops").1 (by decide),
    by decide,
    ((repeater_send_unsupported 5 starNet 3 "oops").2.2
      (Or.inl (by decide))).2 0 (by decide)⟩

/-- **C10** — `Connection::transmitData` sender-name rule: when the sender
is an endpoint, the opposite endpoint's `receiveData` is invoked (the head
of the trace) with the sender's name exactly when both endpoints are
`EndDevice`s, and with the defaulted empty sender name in every other
endpoint-kind combination; a non-endpoint sender falls through as a
no-op. -/
theorem transmit_sender_name_rule :
    ∀ (fuel : Nat) (net : Network) (c : Connection) (data : String)
      (sdr : Nat),
      (sdr = c.deviceA →
        (net.device sdr).kind = .endDevice →
        (net.device c.deviceB).kind = .endDevice →
        (transmitData fuel net c data sdr).2.head? =
          some ⟨c.deviceB, c.portB, (net.device sdr).name, data⟩) ∧
      (sdr = c.deviceA →
        ¬ ((net.device sdr).kind = .endDevice ∧
            (net.device c.deviceB).kind = .endDevice) →
        (transmitData fuel net c data sdr).2.head? =
          some ⟨c.deviceB, c.portB, "", data⟩) ∧
      (sdr ≠ c.deviceA → sdr = c.deviceB →
        (net.device sdr).kind = .endDevice →
        (net.device c.deviceA).kind = .endDevice →
        (transmitData fuel net c data sdr).2.head? =
          some ⟨c.deviceA, c.portA, (net.device sdr).name, data⟩) ∧
      (sdr ≠ c.deviceA → sdr = c.deviceB →
        ¬ ((net.device sdr).kind = .endDevice ∧
            (net.device c.deviceA).kind = .endDevice) →
        (transmitData fuel net c data sdr).2.head? =
          some ⟨c.deviceA, c.portA, "", data⟩) ∧
      (sdr ≠ c.deviceA → sdr ≠ c.deviceB →
        transmitData fuel net c data sdr = (net, [])) := by
  intro fuel net c data sdr
  refine ⟨fun h1 hk1 hk2 => ?_, fun h1 hk => ?_, fun h1 h2 hk1 hk2 => ?_,
    fun h1 h2 hk => ?_, fun h1 h2 => ?_⟩
  · subst h1; simp [transmitData, hk1, hk2]
  · subst h1; simp only [transmitData, if_pos rfl, if_neg hk]; rfl
  · subst h2; simp [transmitData, h1, hk1, hk2]
  · subst h2
    simp only [transmitData, if_neg h1, if_true]
    rw [if_neg hk]
    rfl
  · simp [transmitData, h1, h2]

/-- Witness for C10: over `dupPortNet`, the direct `PC1`–`PC2` link
transmits with sender name "PC1" (both endpoints are end devices), while
the hub attachment `⟨2, 0⟩` transmits from `PC1` to the hub with the empty
sender name. -/
theorem transmit_sender_name_rule_witness :
    (transmitData 2 dupPortNet ⟨0, 1, 0, 0⟩ "a" 0).2.head? =
      some ⟨1, 0, "PC1", "a"⟩ ∧
    (transmitData 2 dupPortNet ⟨2, 0, 0, 0⟩ "a" 0).2.head? =
      some ⟨2, 0, "", "a"⟩ ∧
    transmitData 2 dupPortNet ⟨0, 1, 0, 0⟩ "a" 9 = (dupPortNet, []) :=
  ⟨(transmit_sender_name_rule 2 dupPortNet ⟨0, 1, 0, 0⟩ "a" 0).1 rfl
      (by decide) (by decide),
    (transmit_sender_name_rule 2 dupPortNet ⟨2, 0, 0, 0⟩ "a" 0).2.2.2.1
      (by decide) rfl (by decide),
    (transmit_sender_name_rule 2 dupPortNet ⟨0, 1, 0, 0⟩ "a" 9).2.2.2.2
      (by decide) (by decide)⟩
